import Mathlib

/-!
Verification of the ProtoScribe compliance-checking and document-segmentation
heuristics (src/protoscribe/services/compliance_checker.py and
src/protoscribe/services/document_processor.py).

The Python code is shallowly embedded: text is `String` (a list of
characters), Python float arithmetic on confidences is modelled by exact
rationals (`ℚ`), Python dicts that preserve insertion order are modelled by
association lists with an insert-or-overwrite operation, and `None` is
`Option.none`.  Regular expressions appearing in the source are compiled by
hand to executable character-list functions; each such definition notes the
regex it implements.  Python string operations (`lower`, `strip`, `title`,
`split`, substring `in`, `find`, slicing) are modelled on ASCII text, which
covers every literal the code manipulates.
-/

/-- Characters the model treats as whitespace, matching Python `str.strip`
and the regex class `\s` on ASCII text. -/
def pyWS (c : Char) : Bool := c.isWhitespace

/-- `isPrefOf n h` is true when the character list `n` is a prefix of `h`. -/
def isPrefOf : List Char → List Char → Bool
  | [], _ => true
  | _ :: _, [] => false
  | a :: as, b :: bs => a = b && isPrefOf as bs

/-- Python substring test `needle in hay` on character lists. -/
def containsSubL (needle : List Char) : List Char → Bool
  | [] => needle.isEmpty
  | c :: rest => isPrefOf needle (c :: rest) || containsSubL needle rest

/-- Python `str.find`: index of the first occurrence of `needle`
(meaningful whenever `containsSubL needle hay` holds, which is the only
situation in which the source consults it). -/
def findIdxL (needle : List Char) : List Char → Nat
  | [] => 0
  | c :: rest => if isPrefOf needle (c :: rest) then 0 else findIdxL needle rest + 1

/-- Python `str.lower` on character lists (ASCII). -/
def lowerL (l : List Char) : List Char := l.map Char.toLower

/-- Python `str.strip` on character lists. -/
def stripL (l : List Char) : List Char :=
  ((l.dropWhile pyWS).reverse.dropWhile pyWS).reverse

/-- Python `content.split(chr(10))` on character lists. -/
def splitNl : List Char → List (List Char)
  | [] => [[]]
  | c :: rest =>
    if c = '\n' then [] :: splitNl rest
    else
      match splitNl rest with
      | [] => [[c]]
      | h :: t => (c :: h) :: t

/-- Python `"\n".join(...)` on character lists. -/
def joinNl : List (List Char) → List Char
  | [] => []
  | [l] => l
  | l :: ls => l ++ '\n' :: joinNl ls

/-- Python `str.lower`. -/
def pyLower (s : String) : String := ⟨lowerL s.data⟩

/-- Python `str.strip`. -/
def pyStrip (s : String) : String := ⟨stripL s.data⟩

/-- Python substring test `needle in hay`. -/
def pyContains (hay needle : String) : Bool := containsSubL needle.data hay.data

/-- Python `content.split(chr(10))`. -/
def pySplitNl (s : String) : List String := (splitNl s.data).map (fun l => ⟨l⟩)

/-- Helper of `pyTitle`: the flag records whether the previous character was
alphabetic. -/
def titleAux : Bool → List Char → List Char
  | _, [] => []
  | prevAlpha, c :: rest =>
    if c.isAlpha then
      (if prevAlpha then c.toLower else c.toUpper) :: titleAux true rest
    else c :: titleAux false rest

/-- Python `str.title` (ASCII). -/
def pyTitle (s : String) : String := ⟨titleAux false s.data⟩

/-! ## ComplianceChecker._search_for_keywords -/

/-- Result dictionary of `_search_for_keywords`. -/
structure SearchResult where
  found : Bool
  confidence : ℚ
  text : Option String
  keywordsFound : List String
deriving DecidableEq

/-- Case-insensitive presence of `kw` in `text`:
`keyword.lower() in text_lower` in the source. -/
def kwPresent (text kw : String) : Bool := pyContains (pyLower text) (pyLower kw)

/-- Context extraction of `_search_for_keywords`: 100 characters before and
after the first occurrence of the keyword, clamped to the string bounds,
stripped.  Indices are computed on the lowercased text and the slice is taken
from the original text, exactly as in the source. -/
def contextWindow (text kw : String) : String :=
  let tl := lowerL text.data
  let i := findIdxL (lowerL kw.data) tl
  let s := i - 100
  let e := min text.data.length (i + kw.data.length + 100)
  pyStrip ⟨(text.data.drop s).take (e - s)⟩

/-- One iteration of the keyword loop in `_search_for_keywords`: state is
`(found_keywords, found_text)`. -/
def kwStep (text : String) (st : List String × Option String) (kw : String) :
    List String × Option String :=
  if kwPresent text kw then
    (st.1 ++ [kw],
      match st.2 with
      | some t => some t
      | none => some (contextWindow text kw))
  else st

/-- `ComplianceChecker._search_for_keywords`. -/
def search_for_keywords (text : String) (keywords : List String) : SearchResult :=
  let st := keywords.foldl (kwStep text) ([], none)
  { found := decide (0 < st.1.length)
    confidence := if keywords = [] then 0 else (st.1.length : ℚ) / (keywords.length : ℚ)
    text := st.2
    keywordsFound := st.1 }

/-! Basic facts about the keyword search loop. -/

theorem searchFold_fst (text : String) (ks : List String) :
    ∀ (acc : List String) (ft : Option String),
      (ks.foldl (kwStep text) (acc, ft)).1 = acc ++ ks.filter (kwPresent text) := by
  induction ks with
  | nil => intro acc ft; simp
  | cons k ks ih =>
    intro acc ft
    by_cases hk : kwPresent text k
    · simp only [List.foldl_cons, kwStep, hk, if_pos, List.filter_cons_of_pos]
      rw [ih]
      simp
    · simp only [List.foldl_cons, kwStep, hk, if_neg, Bool.false_eq_true, not_false_iff,
        List.filter_cons_of_neg]
      rw [ih]

theorem search_keywordsFound (text : String) (keywords : List String) :
    (search_for_keywords text keywords).keywordsFound = keywords.filter (kwPresent text) := by
  simp [search_for_keywords, searchFold_fst]

example : (search_for_keywords "The STUDY was blind" ["study", "blind", "zebra"]).keywordsFound
    = ["study", "blind"] := by decide

example : (search_for_keywords "abc" []).found = false := by decide

/-! ## ComplianceChecker._extract_keywords -/

/-- The `keyword_patterns` table of `_extract_keywords`, in source order.
Each regex in the source is an alternation of literals (with `s?` expanded
to both spellings), so a regex search is a disjunction of substring tests:
the first component lists the alternatives, the second the keywords
contributed on a match. -/
def keywordPatternTable : List (List String × List String) :=
  [ (["randomised", "randomied", "randomization"], ["random", "randomized", "randomisation"]),
    (["blind", "blinding", "masking"], ["blind", "blinding", "masked", "masking"]),
    (["sample size", "power"], ["sample size", "power", "participants", "subjects"]),
    (["primary outcome", "endpoint"], ["primary outcome", "primary endpoint", "main outcome"]),
    (["secondary outcome"], ["secondary outcome", "secondary endpoint"]),
    (["inclusion criteria", "eligibility"], ["inclusion", "eligible", "eligibility criteria"]),
    (["exclusion criteria"], ["exclusion", "excluded"]),
    (["statistical analysis"], ["statistical", "analysis", "statistics"]),
    (["adverse event", "adverse events"], ["adverse", "side effect", "safety"]),
    (["consent", "informed consent"], ["consent", "informed consent"]),
    (["ethics", "ethical"], ["ethics", "ethical", "IRB", "ethics committee"]) ]

/-- The hardcoded stopword list of `_extract_keywords`. -/
def stopwords : List String := ["with", "that", "this", "they", "were", "been"]

/-- Python word characters (regex `\w` on ASCII). -/
def isWordChar (c : Char) : Bool := c.isAlpha || c.isDigit || c = '_'

/-- Splits a character list into its maximal runs of word characters
(the accumulator holds the current run, reversed). -/
def tokAux : List Char → List Char → List (List Char)
  | cur, [] => if cur.isEmpty then [] else [cur.reverse]
  | cur, c :: rest =>
    if isWordChar c then tokAux (c :: cur) rest
    else if cur.isEmpty then tokAux [] rest
    else cur.reverse :: tokAux [] rest

/-- `re.findall` for the pattern `\b[a-zA-Z]{4,}\b`: the matches are exactly
the maximal word-character runs that consist solely of letters and have
length at least 4 (a run touching a digit or underscore has no word boundary
inside it). -/
def findWordsL (l : List Char) : List String :=
  ((tokAux [] l).filter (fun w => w.all Char.isAlpha && decide (4 ≤ w.length))).map
    (fun w => ⟨w⟩)

/-- `ComplianceChecker._extract_keywords`.  The source returns
`list(set(keywords))`, whose order is unspecified; the model takes
`List.dedup` as the deduplicated representative (every claim below is
insensitive to the order of this list). -/
def extract_keywords (description : String) : List String :=
  let dl := pyLower description
  let tableKws := keywordPatternTable.foldl
    (fun acc p => if p.1.any (fun lit => pyContains dl lit) then acc ++ p.2 else acc) []
  let importantWords := findWordsL dl.data
  let kws := tableKws ++ importantWords.filter (fun w => !stopwords.contains w)
  kws.dedup

example : extract_keywords "alpha" = ["alpha"] := by decide

example : extract_keywords "Specific objectives or hypotheses"
    = ["specific", "objectives", "hypotheses"] := by decide

/-! ## ComplianceChecker._find_relevant_sections -/

/-- Python dict assignment `d[k] = v` on an insertion-ordered association
list: overwrite in place when the key exists, append otherwise. -/
def upsert (m : List (String × String)) (k v : String) : List (String × String) :=
  if m.any (fun q => q.1 == k) then m.map (fun q => if q.1 = k then (k, v) else q)
  else m ++ [(k, v)]

/-- The `section_patterns` table of `_find_relevant_sections`, in source
order: category bucket name and its synonym list. -/
def sectionPatternTable : List (String × List String) :=
  [ ("method", ["method", "design", "procedure"]),
    ("participant", ["participant", "subject", "population", "eligibility"]),
    ("outcome", ["outcome", "endpoint", "measure"]),
    ("statistical", ["statistical", "analysis", "sample"]),
    ("abstract", ["abstract", "summary"]),
    ("introduction", ["introduction", "background"]),
    ("ethics", ["ethics", "ethical", "consent"]) ]

/-- The direct-match pass of `_find_relevant_sections`: sections whose
lowercased label contains the hint as a substring. -/
def directMatches (sections : List (String × String)) (hint : String) :
    List (String × String) :=
  sections.foldl
    (fun acc q => if pyContains (pyLower q.1) hint then upsert acc q.1 q.2 else acc) []

/-- The category-bucket pass of `_find_relevant_sections`, run on top of the
direct matches: every bucket triggered by the hint adds the sections whose
lowercased label contains one of its synonyms. -/
def bucketMatches (sections : List (String × String)) (hint : String) :
    List (String × String) :=
  sectionPatternTable.foldl
    (fun acc bucket =>
      if bucket.2.any (fun p => pyContains hint p) then
        sections.foldl
          (fun acc2 q =>
            if bucket.2.any (fun p => pyContains (pyLower q.1) p) then upsert acc2 q.1 q.2
            else acc2) acc
      else acc)
    (directMatches sections hint)

/-- `ComplianceChecker._find_relevant_sections`: the matches, or the full
section map when nothing matched (`relevant if relevant else sections`). -/
def find_relevant_sections (sections : List (String × String)) (hint : String) :
    List (String × String) :=
  let relevant := bucketMatches sections hint
  if relevant = [] then sections else relevant

example : find_relevant_sections [("Methods", "m"), ("Results", "r")] "methods"
    = [("Methods", "m")] := by decide

example : find_relevant_sections [("Results", "r")] "zebra" = [("Results", "r")] := by decide

/-! ## ComplianceChecker._check_item -/

/-- A guideline checklist item `{id, section, description}` (the `section`
field is called `sectionName` here because `section` is a Lean keyword);
`item.get("section", "")` is modelled by storing the default directly. -/
structure ChecklistItem where
  id : String
  sectionName : String
  description : String
deriving DecidableEq

/-- Result dictionary of `_check_item`. -/
structure ItemCheckResult where
  itemId : String
  description : String
  status : String
  confidence : ℚ
  foundText : Option String
  issue : Option String
deriving DecidableEq

/-- Python truthiness test `not found_text` for an optional string. -/
def pyFalsy : Option String → Bool
  | none => true
  | some t => t.data.isEmpty

/-- The loop over `relevant_sections.items()` in `_check_item`: the first
section in which the search finds something supplies `(found_text,
confidence)` and the loop breaks; otherwise they stay `(None, 0.0)`. -/
def sectionSearch (keywords : List String) : List (String × String) → Option String × ℚ
  | [] => (none, 0)
  | s :: rest =>
    let r := search_for_keywords s.2 keywords
    if r.found then (r.text, r.confidence) else sectionSearch keywords rest

/-- `ComplianceChecker._check_item`. -/
def check_item (content : String) (sections : List (String × String))
    (item : ChecklistItem) : ItemCheckResult :=
  let sectionHint := pyLower item.sectionName
  let keywords := extract_keywords item.description
  let relevant := find_relevant_sections sections sectionHint
  let st0 := sectionSearch keywords relevant
  let st1 :=
    if pyFalsy st0.1 then
      let r := search_for_keywords content keywords
      if r.found then (r.text, r.confidence * (7 / 10 : ℚ)) else st0
    else st0
  let confidence := st1.2
  let status : String :=
    if confidence ≥ 8 / 10 then "pass"
    else if confidence ≥ 4 / 10 then "warning"
    else "fail"
  let issue : Option String :=
    if status = "pass" then none
    else if confidence ≥ 4 / 10 then some "Item may be present but could be more explicit"
    else some "Item not found or not adequately addressed"
  let foundTextOut : Option String :=
    match st1.1 with
    | none => none
    | some t => if 200 < t.data.length then some ⟨t.data.take 200 ++ ("..." : String).data⟩
                else some t
  { itemId := item.id
    description := item.description
    status := status
    confidence := confidence
    foundText := foundTextOut
    issue := issue }

/-- The pass/warning/fail classifier of `_check_item`, as a function of the
final confidence alone. -/
def statusOfConfidence (c : ℚ) : String :=
  if c ≥ 8 / 10 then "pass" else if c ≥ 4 / 10 then "warning" else "fail"

/-- The issue message of `_check_item`, as a function of the final
confidence alone. -/
def issueOfConfidence (c : ℚ) : Option String :=
  if c ≥ 8 / 10 then none
  else if c ≥ 4 / 10 then some "Item may be present but could be more explicit"
  else some "Item not found or not adequately addressed"

/-! ## ComplianceChecker aggregation -/

/-- An entry of the `failed_items` list of `_check_guideline_compliance`. -/
structure FailedItem where
  itemId : String
  description : String
  sectionName : String
  guideline : String
deriving DecidableEq

/-- An entry of the `warnings` list of `_check_guideline_compliance`
(`check_result.get("issue", "")` returns the stored optional issue). -/
structure WarningItem where
  itemId : String
  description : String
  issue : Option String
  guideline : String
deriving DecidableEq

/-- A guideline checklist (the `items` key of the guidelines dictionary). -/
structure Guideline where
  items : List ChecklistItem
deriving DecidableEq

/-- Result dictionary of `_check_guideline_compliance`. -/
structure GuidelineResult where
  guideline : String
  score : ℚ
  items : List ItemCheckResult
  failedItems : List FailedItem
  warnings : List WarningItem
deriving DecidableEq

/-- Result dictionary of `check_compliance`. -/
structure ComplianceReport where
  score : ℚ
  consortScore : ℚ
  spiritScore : ℚ
  totalItems : Nat
  passedItems : Nat
  failedItems : List FailedItem
  warnings : List WarningItem
  consortDetails : GuidelineResult
  spiritDetails : GuidelineResult
deriving DecidableEq

/-- Round-half-to-even of a rational to an integer, the rounding mode of
Python `round`. -/
def roundHalfEven (x : ℚ) : ℤ :=
  let f := ⌊x⌋
  let r := x - f
  if r < 1 / 2 then f else if 1 / 2 < r then f + 1 else if f % 2 = 0 then f else f + 1

/-- Python `round(x, 1)` modelled over exact rationals (the source applies
it to floats; the model idealizes float arithmetic as exact). -/
def pyRound1 (x : ℚ) : ℚ := (roundHalfEven (x * 10) : ℚ) / 10

/-- Number of results whose status is `"pass"`. -/
def passCount (rs : List ItemCheckResult) : Nat :=
  (rs.filter (fun r => r.status = "pass")).length

/-- `ComplianceChecker._check_guideline_compliance`.  The single Python loop
that appends to `results`, `failed_items` and `warnings` is rendered as a
map followed by filters over the same item/result pairs, preserving order. -/
def check_guideline_compliance (content : String) (sections : List (String × String))
    (guidelines : Guideline) (guidelineType : String) : GuidelineResult :=
  let pairs := guidelines.items.map (fun item => (item, check_item content sections item))
  let results := pairs.map (fun p => p.2)
  let failedItems := (pairs.filter (fun p => p.2.status = "fail")).map
    (fun p => { itemId := p.1.id, description := p.1.description,
                sectionName := p.1.sectionName, guideline := guidelineType : FailedItem })
  let warnings := (pairs.filter (fun p => p.2.status = "warning")).map
    (fun p => { itemId := p.1.id, description := p.1.description,
                issue := p.2.issue, guideline := guidelineType : WarningItem })
  let passedCount := passCount results
  let score : ℚ := if results = [] then 0 else (passedCount : ℚ) / (results.length : ℚ) * 100
  { guideline := guidelineType
    score := pyRound1 score
    items := results
    failedItems := failedItems
    warnings := warnings }

/-- `ComplianceChecker.check_compliance` (the guideline dictionaries loaded
at construction time are passed as parameters; `sections = None` defaults to
the single-section map over the whole content). -/
def check_compliance (content : String) (osections : Option (List (String × String)))
    (consortG spiritG : Guideline) : ComplianceReport :=
  let sections := osections.getD [("content", content)]
  let consortResults := check_guideline_compliance content sections consortG "CONSORT"
  let spiritResults := check_guideline_compliance content sections spiritG "SPIRIT"
  let totalItems := consortResults.items.length + spiritResults.items.length
  let passedItems := passCount consortResults.items + passCount spiritResults.items
  let overallScore : ℚ :=
    if 0 < totalItems then (passedItems : ℚ) / (totalItems : ℚ) * 100 else 0
  { score := pyRound1 overallScore
    consortScore := consortResults.score
    spiritScore := spiritResults.score
    totalItems := totalItems
    passedItems := passedItems
    failedItems := consortResults.failedItems ++ spiritResults.failedItems
    warnings := consortResults.warnings ++ spiritResults.warnings
    consortDetails := consortResults
    spiritDetails := spiritResults }

/-! ## DocumentProcessor._extract_title -/

/-- The fixed title keywords of `_extract_title`. -/
def titleKeywords : List String := ["trial", "study", "protocol", "research"]

/-- The loop over `lines[:10]` in `_extract_title`: the first stripped line
that is non-empty, shorter than 200 characters, and either contains a title
keyword (case-insensitively) or is longer than 10 characters. -/
def titleScan : List String → Option String
  | [] => none
  | line :: rest =>
    let l := pyStrip line
    if !l.data.isEmpty && decide (l.data.length < 200) then
      if titleKeywords.any (fun k => pyContains (pyLower l) k) then some l
      else if 10 < l.data.length then some l
      else titleScan rest
    else titleScan rest

/-- The fallback loop of `_extract_title`: first line whose stripped form is
non-empty. -/
def firstNonEmpty : List String → Option String
  | [] => none
  | line :: rest =>
    let l := pyStrip line
    if l.data.isEmpty then firstNonEmpty rest else some l

/-- `DocumentProcessor._extract_title`. -/
def extract_title (content : String) : String :=
  let lines := pySplitNl content
  match titleScan (lines.take 10) with
  | some t => t
  | none =>
    match firstNonEmpty lines with
    | some l => if 100 < l.data.length then ⟨l.data.take 100 ++ ("..." : String).data⟩ else l
    | none => "Untitled Protocol"

/-- The predicate a stripped line must satisfy for the first loop of
`_extract_title` to return it. -/
def titleGood (l : String) : Bool :=
  !l.data.isEmpty && decide (l.data.length < 200)
    && (titleKeywords.any (fun k => pyContains (pyLower l) k) || decide (10 < l.data.length))

/-- Modelled from the spec: title extraction as §4.1 words it — "scan the
first 10 non-empty lines; return the first line containing any of a fixed
set of domain keywords; otherwise return the first line longer than 10
characters; otherwise return the first non-empty line truncated to 100
characters with an ellipsis; otherwise return a literal Untitled Protocol".
This is the claimed behaviour, kept for comparison with `extract_title`
(which is translated from the source). -/
def extract_title_spec (content : String) : String :=
  let nonEmptyLines := ((pySplitNl content).map pyStrip).filter (fun l => !l.data.isEmpty)
  let window := nonEmptyLines.take 10
  match window.find? (fun l => titleKeywords.any (fun k => pyContains (pyLower l) k)) with
  | some t => t
  | none =>
    match window.find? (fun l => 10 < l.data.length) with
    | some t => t
    | none =>
      match nonEmptyLines.head? with
      | some l => if 100 < l.data.length then ⟨l.data.take 100 ++ ("..." : String).data⟩ else l
      | none => "Untitled Protocol"

example : extract_title "" = "Untitled Protocol" := by decide

example : extract_title "hi\nA study of something" = "A study of something" := by decide

/-! ## DocumentProcessor._segment_sections -/

/-- The plain-literal alternatives of the `section_patterns` regex list: a
stripped lowercased line matches one of the whole-line regexes (with `s?`
expanded) exactly when it equals one of these literals, except for the
two-word patterns handled by `litWsLit`. -/
def headingLits : List String :=
  [ "abstract", "summary",
    "introduction", "background",
    "objective", "objectives", "aim", "aims",
    "method", "methods", "methodology",
    "participant", "participants", "subject", "subjects", "population",
    "intervention", "interventions", "treatment", "treatments",
    "outcome", "outcomes", "endpoint", "endpoints",
    "ethic", "ethics",
    "discussion", "limitations",
    "conclusion", "conclusions",
    "reference", "references", "bibliography" ]

/-- The two-word heading patterns, each of the form `^(a\s+b)$`. -/
def headingWsPairs : List (String × String) :=
  [ ("study", "design"),
    ("eligibility", "criteria"), ("inclusion", "criteria"), ("exclusion", "criteria"),
    ("sample", "size"), ("statistical", "analysis"),
    ("data", "collection"), ("data", "management"),
    ("ethical", "considerations") ]

/-- Whole-line match for a pattern `^(a\s+b)$`: the literal `a`, one or more
whitespace characters, then the literal `b`, ending the line. -/
def litWsLit (a b : String) (s : List Char) : Bool :=
  isPrefOf a.data s &&
    (let rest := s.drop a.data.length
     let ws := rest.takeWhile pyWS
     let rest2 := rest.dropWhile pyWS
     !ws.isEmpty && rest2 = b.data)

/-- Whether a stripped, lowercased line matches one of the fixed
`section_patterns` regexes of `_segment_sections`. -/
def isSectionHeading (lowLine : String) : Bool :=
  headingLits.contains lowLine || headingWsPairs.any (fun p => litWsLit p.1 p.2 lowLine.data)

/-- `re.match` for the numbered-heading pattern `^\d+\.?\s+[A-Z]` on a
stripped line: one or more digits, an optional dot, one or more whitespace
characters, then an uppercase ASCII letter. -/
def isNumberedHeading (stripped : String) : Bool :=
  let l := stripped.data
  let ds := l.takeWhile Char.isDigit
  let r1 := l.dropWhile Char.isDigit
  if ds.isEmpty then false
  else
    let r2 := match r1 with
      | '.' :: t => t
      | t => t
    let ws := r2.takeWhile pyWS
    let r3 := r2.dropWhile pyWS
    if ws.isEmpty then false
    else
      match r3 with
      | c :: _ => 'A' ≤ c && c ≤ 'Z'
      | [] => false

/-- `re.sub` with the pattern `^\d+\.?\s+` and an empty replacement: strips
the leading number, optional dot and whitespace when the pattern matches at
the start, and leaves the line unchanged otherwise. -/
def stripNumbering (stripped : String) : String :=
  let l := stripped.data
  let ds := l.takeWhile Char.isDigit
  let r1 := l.dropWhile Char.isDigit
  if ds.isEmpty then stripped
  else
    let r2 := match r1 with
      | '.' :: t => t
      | t => t
    let ws := r2.takeWhile pyWS
    let r3 := r2.dropWhile pyWS
    if ws.isEmpty then stripped else ⟨r3⟩

/-- Flushing the accumulated lines of `_segment_sections` into the current
section (`if current_content: sections[current_section] = ...`). -/
def flushSection (secs : List (String × String)) (cur : String) (acc : List String) :
    List (String × String) :=
  if acc = [] then secs
  else upsert secs cur (pyStrip ⟨joinNl (acc.map (fun s => s.data))⟩)

/-- The line loop of `_segment_sections`: state is the current section name,
the accumulated (original, unstripped) lines, and the section map built so
far. -/
def segLoop : List String → String → List String → List (String × String) →
    List (String × String)
  | [], cur, acc, secs => flushSection secs cur acc
  | line :: rest, cur, acc, secs =>
    let stripped := pyStrip line
    if isSectionHeading (pyLower stripped) then
      segLoop rest (pyTitle stripped) [] (flushSection secs cur acc)
    else if isNumberedHeading stripped then
      segLoop rest (stripNumbering stripped) [] (flushSection secs cur acc)
    else
      segLoop rest cur (acc ++ [line]) secs

/-- `DocumentProcessor._segment_sections`: run the loop starting from the
default section `"Introduction"`, then drop sections whose body strips to
empty. -/
def segment_sections (content : String) : List (String × String) :=
  (segLoop (pySplitNl content) "Introduction" [] []).filter (fun p => pyStrip p.2 ≠ "")

example : segment_sections "no headings here\njust text" =
    [("Introduction", "no headings here\njust text")] := by decide

example : segment_sections "Introduction\nAlpha\nMethods\nBeta" =
    [("Introduction", "Alpha"), ("Methods", "Beta")] := by decide

example : segment_sections "1. Overview\nsome text" = [("Overview", "some text")] := by decide

example : segment_sections "" = [] := by decide

/-! ## Lemmas about the keyword search scorer -/

theorem search_confidence_eq (text : String) (keywords : List String) (h : keywords ≠ []) :
    (search_for_keywords text keywords).confidence
      = ((keywords.filter (kwPresent text)).length : ℚ) / (keywords.length : ℚ) := by
  simp [search_for_keywords, searchFold_fst, h]

theorem search_confidence_nonneg (text : String) (keywords : List String) :
    0 ≤ (search_for_keywords text keywords).confidence := by
  by_cases h : keywords = []
  · simp [search_for_keywords, h]
  · rw [search_confidence_eq text keywords h]
    positivity

theorem search_confidence_le_one (text : String) (keywords : List String) :
    (search_for_keywords text keywords).confidence ≤ 1 := by
  by_cases h : keywords = []
  · simp [search_for_keywords, h]
  · rw [search_confidence_eq text keywords h]
    have hlen : 0 < (keywords.length : ℚ) := by
      have := List.length_pos.mpr h
      exact_mod_cast this
    rw [div_le_one hlen]
    exact_mod_cast List.length_filter_le _ _

theorem search_found_iff (text : String) (keywords : List String) :
    (search_for_keywords text keywords).found = true
      ↔ 0 < (search_for_keywords text keywords).confidence := by
  by_cases h : keywords = []
  · subst h
    simp [search_for_keywords]
  · have hlen : 0 < (keywords.length : ℚ) := by
      have := List.length_pos.mpr h
      exact_mod_cast this
    rw [search_confidence_eq text keywords h]
    simp only [search_for_keywords, decide_eq_true_eq, searchFold_fst, List.nil_append]
    rw [div_pos_iff_of_pos_right hlen]
    constructor
    · intro hpos
      exact_mod_cast hpos
    · intro hpos
      exact_mod_cast hpos

/-- C1 (amended): for every text span and non-empty keyword list,
`_search_for_keywords` returns `confidence = |keywords_found| / |keywords|`,
`confidence = 1` iff every keyword is case-insensitively present as a
substring of the span, and `found` iff `confidence > 0`; for the empty
keyword list the confidence is 0 (and `found` iff `confidence > 0` still
holds, by `search_found_iff`).  The claim's `confidence == 1.0` iff-clause
is restricted to non-empty keyword lists. -/
theorem search_for_keywords_scorer (text : String) (keywords : List String)
    (h : keywords ≠ []) :
    (search_for_keywords text keywords).confidence
        = ((keywords.filter (kwPresent text)).length : ℚ) / (keywords.length : ℚ)
    ∧ ((search_for_keywords text keywords).confidence = 1
        ↔ ∀ k ∈ keywords, kwPresent text k = true)
    ∧ ((search_for_keywords text keywords).found = true
        ↔ 0 < (search_for_keywords text keywords).confidence)
    ∧ (search_for_keywords text []).confidence = 0 := by
  have hlen : 0 < (keywords.length : ℚ) := by
    have := List.length_pos.mpr h
    exact_mod_cast this
  refine ⟨search_confidence_eq text keywords h, ?_, search_found_iff text keywords, by
    simp [search_for_keywords]⟩
  rw [search_confidence_eq text keywords h, div_eq_one_iff_eq (ne_of_gt hlen)]
  constructor
  · intro heq
    have hlen2 : (keywords.filter (kwPresent text)).length = keywords.length := by
      exact_mod_cast heq
    have hfe : keywords.filter (kwPresent text) = keywords :=
      (List.filter_sublist keywords).eq_of_length hlen2
    exact List.filter_eq_self.mp hfe
  · intro hall
    have hfe : keywords.filter (kwPresent text) = keywords := List.filter_eq_self.mpr hall
    rw [hfe]

/-- C1 counterexample: with the empty keyword list, every keyword is
(vacuously) case-insensitively present in the span, yet the returned
confidence is 0, not 1 — so the claimed iff fails as stated for arbitrary
keyword lists. -/
theorem search_for_keywords_scorer_cex :
    (∀ k ∈ ([] : List String), kwPresent "alpha" k = true)
    ∧ (search_for_keywords "alpha" []).confidence ≠ 1 := by
  constructor
  · intro k hk
    simp at hk
  · have h0 : (search_for_keywords "alpha" []).confidence = 0 := by
      simp [search_for_keywords]
    rw [h0]
    norm_num

/-- Witness for C1's theorem at a concrete input. -/
theorem search_for_keywords_scorer_witness :
    (["study", "zebra"] : List String) ≠ []
    ∧ ((search_for_keywords "A pilot study" ["study", "zebra"]).confidence
          = (((["study", "zebra"] : List String).filter (kwPresent "A pilot study")).length : ℚ)
              / ((["study", "zebra"] : List String).length : ℚ)
        ∧ ((search_for_keywords "A pilot study" ["study", "zebra"]).confidence = 1
            ↔ ∀ k ∈ (["study", "zebra"] : List String), kwPresent "A pilot study" k = true)
        ∧ ((search_for_keywords "A pilot study" ["study", "zebra"]).found = true
            ↔ 0 < (search_for_keywords "A pilot study" ["study", "zebra"]).confidence)
        ∧ (search_for_keywords "A pilot study" []).confidence = 0) :=
  ⟨by decide, search_for_keywords_scorer "A pilot study" ["study", "zebra"] (by decide)⟩

/-! ## Lemmas about the per-item check -/

theorem sectionSearch_bounds (keywords : List String) :
    ∀ l : List (String × String),
      0 ≤ (sectionSearch keywords l).2 ∧ (sectionSearch keywords l).2 ≤ 1 := by
  intro l
  induction l with
  | nil => simp [sectionSearch]
  | cons s rest ih =>
    simp only [sectionSearch]
    by_cases hf : (search_for_keywords s.2 keywords).found = true
    · simp only [hf, if_true]
      exact ⟨search_confidence_nonneg _ _, search_confidence_le_one _ _⟩
    · simp only [hf, if_false]
      exact ih

theorem sectionSearch_not_found (keywords : List String) (l : List (String × String))
    (h : ∀ p ∈ l, (search_for_keywords p.2 keywords).found = false) :
    sectionSearch keywords l = (none, 0) := by
  induction l with
  | nil => rfl
  | cons s rest ih =>
    have hs := h s (List.mem_cons_self s rest)
    simp only [sectionSearch, hs]
    simp only [Bool.false_eq_true, if_false]
    exact ih fun p hp => h p (List.mem_cons_of_mem s hp)

/-- The final confidence of `_check_item`, written out as the source
computes it: the section-loop value, replaced by the damped whole-content
value when the loop produced no (truthy) evidence text and the global
search succeeds. -/
theorem check_item_confidence_eq (content : String) (sections : List (String × String))
    (item : ChecklistItem) :
    (check_item content sections item).confidence =
      (if pyFalsy (sectionSearch (extract_keywords item.description)
            (find_relevant_sections sections (pyLower item.sectionName))).1 then
        if (search_for_keywords content (extract_keywords item.description)).found then
          (search_for_keywords content (extract_keywords item.description)).confidence
            * (7 / 10 : ℚ)
        else (sectionSearch (extract_keywords item.description)
            (find_relevant_sections sections (pyLower item.sectionName))).2
      else (sectionSearch (extract_keywords item.description)
            (find_relevant_sections sections (pyLower item.sectionName))).2) := by
  simp only [check_item]
  by_cases h1 : pyFalsy (sectionSearch (extract_keywords item.description)
      (find_relevant_sections sections (pyLower item.sectionName))).1
  · simp only [h1, if_true]
    by_cases h2 : (search_for_keywords content (extract_keywords item.description)).found
    · simp [h2]
    · simp [h2]
  · simp [h1]

/-- C10: the confidence reported by `_check_item` always lies in [0, 1]:
the per-span search confidence is a fraction of the keyword list that was
found, and the 0.7 damping multiplier keeps it in range. -/
theorem check_item_confidence_range (content : String) (sections : List (String × String))
    (item : ChecklistItem) :
    0 ≤ (check_item content sections item).confidence
    ∧ (check_item content sections item).confidence ≤ 1 := by
  rw [check_item_confidence_eq]
  by_cases h1 : pyFalsy (sectionSearch (extract_keywords item.description)
      (find_relevant_sections sections (pyLower item.sectionName))).1
  · simp only [h1, if_true]
    by_cases h2 : (search_for_keywords content (extract_keywords item.description)).found
    · simp only [h2, if_true]
      constructor
      · have := search_confidence_nonneg content (extract_keywords item.description)
        positivity
      · calc (search_for_keywords content (extract_keywords item.description)).confidence
              * (7 / 10 : ℚ)
            ≤ 1 * (7 / 10 : ℚ) := by
              apply mul_le_mul_of_nonneg_right (search_confidence_le_one _ _) (by norm_num)
          _ ≤ 1 := by norm_num
    · simp only [h2, Bool.false_eq_true, if_false]
      exact sectionSearch_bounds _ _
  · simp only [h1, if_false]
    exact sectionSearch_bounds _ _

/-- The issue field of `_check_item` as a function of the final confidence:
the source branches on `status != "pass"`, which coincides with the
threshold test. -/
theorem issue_shape (c : ℚ) :
    (if (if c ≥ 8 / 10 then "pass" else if c ≥ 4 / 10 then "warning" else "fail") = "pass"
      then (none : Option String)
      else if c ≥ 4 / 10 then some "Item may be present but could be more explicit"
      else some "Item not found or not adequately addressed") = issueOfConfidence c := by
  by_cases h8 : c ≥ 8 / 10
  · simp [issueOfConfidence, h8]
  · by_cases h4 : c ≥ 4 / 10 <;> simp [issueOfConfidence, h8, h4]

/-- C3: the status and issue of every checked item are determined solely by
thresholding the final confidence: `≥ 0.8` gives status `"pass"` with no
issue, `0.4 ≤ c < 0.8` gives `"warning"` with the may-be-present message,
and `< 0.4` gives `"fail"` with the not-found message (see
`statusOfConfidence` and `issueOfConfidence`). -/
theorem check_item_status_thresholds (content : String) (sections : List (String × String))
    (item : ChecklistItem) :
    (check_item content sections item).status
        = statusOfConfidence (check_item content sections item).confidence
    ∧ (check_item content sections item).issue
        = issueOfConfidence (check_item content sections item).confidence := by
  constructor
  · rfl
  · simp only [check_item, statusOfConfidence]
    exact issue_shape _

/-- C2: when the item's keywords are found in no section selected by the
relevance matcher but are found in the whole raw content, the reported
confidence is exactly 0.7 times the whole-content search confidence, and
hence at most 0.7 times the confidence the same keyword overlap would have
received inside a relevant section. -/
theorem check_item_damping (content : String) (sections : List (String × String))
    (item : ChecklistItem)
    (h1 : ∀ p ∈ find_relevant_sections sections (pyLower item.sectionName),
        (search_for_keywords p.2 (extract_keywords item.description)).found = false)
    (h2 : (search_for_keywords content (extract_keywords item.description)).found = true) :
    (check_item content sections item).confidence
        = (7 / 10 : ℚ)
            * (search_for_keywords content (extract_keywords item.description)).confidence
    ∧ (check_item content sections item).confidence
        ≤ (7 / 10 : ℚ)
            * (search_for_keywords content (extract_keywords item.description)).confidence := by
  have hs := sectionSearch_not_found (extract_keywords item.description)
    (find_relevant_sections sections (pyLower item.sectionName)) h1
  have heq : (check_item content sections item).confidence
      = (search_for_keywords content (extract_keywords item.description)).confidence
          * (7 / 10 : ℚ) := by
    rw [check_item_confidence_eq, hs]
    simp [pyFalsy, h2]
  rw [heq, mul_comm]
  exact ⟨rfl, le_refl _⟩

/-- Witness for C2's theorem at a concrete input: the item's section hint
selects only a section that lacks the keyword, the raw content contains it. -/
theorem check_item_damping_witness :
    (∀ p ∈ find_relevant_sections [("zeta part", "nothing here")] (pyLower "zeta"),
        (search_for_keywords p.2 (extract_keywords "alpha")).found = false)
    ∧ (search_for_keywords "alpha beta" (extract_keywords "alpha")).found = true
    ∧ (check_item "alpha beta" [("zeta part", "nothing here")]
          ⟨"1", "zeta", "alpha"⟩).confidence
        = (7 / 10 : ℚ) * (search_for_keywords "alpha beta" (extract_keywords "alpha")).confidence :=
  ⟨by decide, by decide,
    (check_item_damping "alpha beta" [("zeta part", "nothing here")] ⟨"1", "zeta", "alpha"⟩
      (by decide) (by decide)).1⟩

/-! ## Lemmas about the relevance matcher -/

theorem foldl_fixed {α β : Type} (l : List β) (f : α → β → α) (a : α)
    (h : ∀ acc, ∀ x ∈ l, f acc x = acc) : l.foldl f a = a := by
  induction l generalizing a with
  | nil => rfl
  | cons x rest ih =>
    rw [List.foldl_cons, h a x (List.mem_cons_self x rest)]
    exact ih a fun acc y hy => h acc y (List.mem_cons_of_mem x hy)

/-- C5: for a non-empty section map the relevance matcher never returns an
empty mapping, and when no section label matches the hint by substring nor
by a synonym of a hint-triggered category bucket, it returns the full
section map unchanged. -/
theorem find_relevant_sections_fallback (sections : List (String × String)) (hint : String)
    (hne : sections ≠ []) :
    find_relevant_sections sections hint ≠ []
    ∧ ((∀ q ∈ sections, pyContains (pyLower q.1) hint = false)
        → (∀ b ∈ sectionPatternTable, b.2.any (fun p => pyContains hint p) = true
            → ∀ q ∈ sections, b.2.any (fun p => pyContains (pyLower q.1) p) = false)
        → find_relevant_sections sections hint = sections) := by
  constructor
  · by_cases hr : bucketMatches sections hint = []
    · simp only [find_relevant_sections, hr, if_true]
      exact hne
    · simp only [find_relevant_sections, hr, if_false]
      exact hr
  · intro hdirect hbucket
    have hd : directMatches sections hint = [] := by
      apply foldl_fixed
      intro acc q hq
      simp [hdirect q hq]
    have hb : bucketMatches sections hint = [] := by
      rw [bucketMatches, hd]
      apply foldl_fixed
      intro acc b hbmem
      by_cases htrig : b.2.any (fun p => pyContains hint p) = true
      · simp only [htrig, if_true]
        apply foldl_fixed
        intro acc2 q hq
        simp [hbucket b hbmem htrig q hq]
      · simp [htrig]
    simp [find_relevant_sections, hb]

/-- Witness for C5's theorem at a concrete input where nothing matches. -/
theorem find_relevant_sections_fallback_witness :
    ([("zeta part", "body")] : List (String × String)) ≠ []
    ∧ find_relevant_sections [("zeta part", "body")] "quux" ≠ []
    ∧ find_relevant_sections [("zeta part", "body")] "quux" = [("zeta part", "body")] :=
  ⟨by decide,
    (find_relevant_sections_fallback [("zeta part", "body")] "quux" (by decide)).1,
    (find_relevant_sections_fallback [("zeta part", "body")] "quux" (by decide)).2
      (by decide) (by decide)⟩

/-! ## The keyword extractor is non-empty on contentful descriptions -/

/-- C9: whenever the description contains at least one alphabetic word of
length at least 4 (as matched by the word pattern, modelled by `findWordsL`)
that is not a stopword, `_extract_keywords` returns a non-empty list. -/
theorem extract_keywords_nonempty (description : String)
    (h : (findWordsL (pyLower description).data).filter
          (fun w => !stopwords.contains w) ≠ []) :
    extract_keywords description ≠ [] := by
  simp only [extract_keywords]
  rw [Ne, List.dedup_eq_nil, List.append_eq_nil]
  intro hcontra
  exact h hcontra.2

/-- Witness for C9's theorem at a concrete input. -/
theorem extract_keywords_nonempty_witness :
    (findWordsL (pyLower "alpha").data).filter (fun w => !stopwords.contains w) ≠ []
    ∧ extract_keywords "alpha" ≠ [] :=
  ⟨by decide, extract_keywords_nonempty "alpha" (by decide)⟩

/-! ## Lemmas about guideline aggregation -/

theorem cgc_items (content : String) (sections : List (String × String)) (g : Guideline)
    (t : String) :
    (check_guideline_compliance content sections g t).items
      = g.items.map (fun item => check_item content sections item) := by
  simp [check_guideline_compliance, List.map_map, Function.comp]

theorem cgc_score (content : String) (sections : List (String × String)) (g : Guideline)
    (t : String) :
    (check_guideline_compliance content sections g t).score
      = pyRound1 (if g.items = [] then 0 else
          (passCount ((check_guideline_compliance content sections g t).items) : ℚ)
            / (g.items.length : ℚ) * 100) := by
  rw [cgc_items]
  simp only [check_guideline_compliance, List.map_map]
  congr 1
  by_cases h : g.items = []
  · simp [h]
  · have hmap : g.items.map ((fun p => p.2) ∘ fun item => (item, check_item content sections item))
        = g.items.map (fun item => check_item content sections item) := by
      simp [Function.comp]
    rw [hmap]
    have hne : g.items.map (fun item => check_item content sections item) ≠ [] := by
      simp [h]
    simp only [hne, if_false, h, List.length_map]

theorem cgc_failed_nil (content : String) (sections : List (String × String)) (g : Guideline)
    (t : String)
    (h : ∀ r ∈ (check_guideline_compliance content sections g t).items, r.status = "pass") :
    (check_guideline_compliance content sections g t).failedItems = [] := by
  rw [cgc_items] at h
  simp only [check_guideline_compliance, List.map_eq_nil_iff, List.filter_eq_nil_iff]
  intro p hp
  obtain ⟨i, hi, rfl⟩ := List.mem_map.mp hp
  have := h (check_item content sections i) (List.mem_map_of_mem _ hi)
  simp [this]

theorem passCount_all_pass (rs : List ItemCheckResult)
    (h : ∀ r ∈ rs, r.status = "pass") : passCount rs = rs.length := by
  unfold passCount
  rw [List.filter_eq_self.mpr]
  intro r hr
  simp [h r hr]

theorem pyRound1_hundred : pyRound1 100 = 100 := by
  have hfloor : ⌊(100 * 10 : ℚ)⌋ = 1000 := by norm_num
  rw [pyRound1, roundHalfEven]
  simp only [hfloor]
  norm_num

/-- C4 (amended): each guideline's reported score is 100 × passed / total
rounded to one decimal with round-half-to-even (0 if no items, as Python
`round(score, 1)` does), the overall score is the rounded blend over both
guidelines, and when every item passes the report shows
`passed_items = total_items`, an empty failed list, and (when there is at
least one item) an overall score of exactly 100.  The claim omitted the
rounding applied by the source. -/
theorem check_compliance_scores (content : String)
    (osections : Option (List (String × String))) (g1 g2 : Guideline) :
    (check_compliance content osections g1 g2).totalItems
        = g1.items.length + g2.items.length
    ∧ (check_compliance content osections g1 g2).passedItems
        = passCount (check_compliance content osections g1 g2).consortDetails.items
          + passCount (check_compliance content osections g1 g2).spiritDetails.items
    ∧ (check_compliance content osections g1 g2).consortScore
        = pyRound1 (if g1.items = [] then 0 else
            (passCount (check_compliance content osections g1 g2).consortDetails.items : ℚ)
              / (g1.items.length : ℚ) * 100)
    ∧ (check_compliance content osections g1 g2).spiritScore
        = pyRound1 (if g2.items = [] then 0 else
            (passCount (check_compliance content osections g1 g2).spiritDetails.items : ℚ)
              / (g2.items.length : ℚ) * 100)
    ∧ (check_compliance content osections g1 g2).score
        = pyRound1 (if 0 < (check_compliance content osections g1 g2).totalItems then
            ((check_compliance content osections g1 g2).passedItems : ℚ)
              / ((check_compliance content osections g1 g2).totalItems : ℚ) * 100
          else 0)
    ∧ ((∀ r ∈ (check_compliance content osections g1 g2).consortDetails.items
            ++ (check_compliance content osections g1 g2).spiritDetails.items,
          r.status = "pass")
        → (check_compliance content osections g1 g2).passedItems
              = (check_compliance content osections g1 g2).totalItems
          ∧ (check_compliance content osections g1 g2).failedItems = []
          ∧ ((check_compliance content osections g1 g2).totalItems ≠ 0
              → (check_compliance content osections g1 g2).score = 100)) := by
  refine ⟨?_, rfl, ?_, ?_, rfl, ?_⟩
  · show (check_guideline_compliance content _ g1 "CONSORT").items.length
        + (check_guideline_compliance content _ g2 "SPIRIT").items.length
        = g1.items.length + g2.items.length
    rw [cgc_items, cgc_items, List.length_map, List.length_map]
  · show (check_guideline_compliance content _ g1 "CONSORT").score = _
    exact cgc_score content _ g1 "CONSORT"
  · show (check_guideline_compliance content _ g2 "SPIRIT").score = _
    exact cgc_score content _ g2 "SPIRIT"
  · intro hall
    have hc : ∀ r ∈ (check_compliance content osections g1 g2).consortDetails.items,
        r.status = "pass" := fun r hr => hall r (List.mem_append_left _ hr)
    have hs : ∀ r ∈ (check_compliance content osections g1 g2).spiritDetails.items,
        r.status = "pass" := fun r hr => hall r (List.mem_append_right _ hr)
    have hpassed : (check_compliance content osections g1 g2).passedItems
        = (check_compliance content osections g1 g2).totalItems := by
      have he : (check_compliance content osections g1 g2).passedItems
          = passCount (check_compliance content osections g1 g2).consortDetails.items
            + passCount (check_compliance content osections g1 g2).spiritDetails.items := rfl
      rw [he, passCount_all_pass _ hc, passCount_all_pass _ hs]
      rfl
    refine ⟨hpassed, ?_, ?_⟩
    · show (check_guideline_compliance content _ g1 "CONSORT").failedItems
          ++ (check_guideline_compliance content _ g2 "SPIRIT").failedItems = []
      rw [cgc_failed_nil content _ g1 "CONSORT" hc, cgc_failed_nil content _ g2 "SPIRIT" hs,
        List.nil_append]
    · intro htot
      have hpos : 0 < (check_compliance content osections g1 g2).totalItems :=
        Nat.pos_of_ne_zero htot
      have hscore : (check_compliance content osections g1 g2).score
          = pyRound1 (if 0 < (check_compliance content osections g1 g2).totalItems then
              ((check_compliance content osections g1 g2).passedItems : ℚ)
                / ((check_compliance content osections g1 g2).totalItems : ℚ) * 100
            else 0) := rfl
      rw [hscore, if_pos hpos, hpassed]
      have hne : ((check_compliance content osections g1 g2).totalItems : ℚ) ≠ 0 := by
        exact_mod_cast htot
      rw [div_self hne, one_mul]
      exact pyRound1_hundred

/-! ## Concrete evaluation helpers for `_check_item` -/

theorem check_item_status_eq (content : String) (sections : List (String × String))
    (item : ChecklistItem) :
    (check_item content sections item).status
      = statusOfConfidence (check_item content sections item).confidence := rfl

theorem check_item_fail (content : String) (sections : List (String × String))
    (item : ChecklistItem)
    (h1 : ∀ p ∈ find_relevant_sections sections (pyLower item.sectionName),
        (search_for_keywords p.2 (extract_keywords item.description)).found = false)
    (h2 : (search_for_keywords content (extract_keywords item.description)).found = false) :
    check_item content sections item
      = ⟨item.id, item.description, "fail", 0, none,
          some "Item not found or not adequately addressed"⟩ := by
  have hs := sectionSearch_not_found (extract_keywords item.description)
    (find_relevant_sections sections (pyLower item.sectionName)) h1
  simp only [check_item, hs, pyFalsy, if_true, h2, Bool.false_eq_true, if_false]
  norm_num [statusOfConfidence]
  intro hcontra
  exact absurd hcontra (by decide)

theorem check_item_pass_conf_one (content : String) (sections : List (String × String))
    (item : ChecklistItem) (t : String)
    (h : sectionSearch (extract_keywords item.description)
          (find_relevant_sections sections (pyLower item.sectionName)) = (some t, 1))
    (ht : t.data.isEmpty = false) :
    (check_item content sections item).status = "pass"
    ∧ (check_item content sections item).confidence = 1 := by
  have hconf : (check_item content sections item).confidence = 1 := by
    rw [check_item_confidence_eq, h]
    simp [pyFalsy, ht]
  refine ⟨?_, hconf⟩
  rw [check_item_status_eq, hconf]
  norm_num [statusOfConfidence]

/-! Concrete inputs for the aggregation claim: a three-item checklist over
the one-word document "alpha", in which exactly the first item passes. -/

def cexItemA : ChecklistItem := ⟨"1a", "", "alpha"⟩

def cexItemB : ChecklistItem := ⟨"1b", "", "bravo"⟩

def cexItemC : ChecklistItem := ⟨"1c", "", "delta"⟩

def cexConsort : Guideline := ⟨[cexItemA, cexItemB, cexItemC]⟩

def cexSpirit : Guideline := ⟨[]⟩

def cexPassG : Guideline := ⟨[cexItemA]⟩

theorem cexA_section : sectionSearch (extract_keywords "alpha")
    (find_relevant_sections [("content", "alpha")] (pyLower "")) = (some "alpha", 1) := by
  have hrel : find_relevant_sections [("content", "alpha")] (pyLower "")
      = [("content", "alpha")] := by decide
  have hkw : extract_keywords "alpha" = ["alpha"] := by decide
  rw [hrel, hkw]
  have hfound : (search_for_keywords "alpha" ["alpha"]).found = true := by decide
  have htext : (search_for_keywords "alpha" ["alpha"]).text = some "alpha" := by decide
  have hconf : (search_for_keywords "alpha" ["alpha"]).confidence = 1 := by
    rw [search_confidence_eq _ _ (by decide)]
    rw [show (["alpha"].filter (kwPresent "alpha")) = ["alpha"] from by decide]
    norm_num
  simp [sectionSearch, hfound, htext, hconf]

theorem cexA_status : (check_item "alpha" [("content", "alpha")] cexItemA).status = "pass" :=
  (check_item_pass_conf_one "alpha" [("content", "alpha")] cexItemA "alpha"
    cexA_section (by decide)).1

theorem cexB_check : check_item "alpha" [("content", "alpha")] cexItemB
    = ⟨"1b", "bravo", "fail", 0, none, some "Item not found or not adequately addressed"⟩ :=
  check_item_fail "alpha" [("content", "alpha")] cexItemB (by decide) (by decide)

theorem cexC_check : check_item "alpha" [("content", "alpha")] cexItemC
    = ⟨"1c", "delta", "fail", 0, none, some "Item not found or not adequately addressed"⟩ :=
  check_item_fail "alpha" [("content", "alpha")] cexItemC (by decide) (by decide)

theorem cex_passCount :
    passCount (check_compliance "alpha" none cexConsort cexSpirit).consortDetails.items = 1 := by
  have hitems : (check_compliance "alpha" none cexConsort cexSpirit).consortDetails.items
      = [check_item "alpha" [("content", "alpha")] cexItemA,
         check_item "alpha" [("content", "alpha")] cexItemB,
         check_item "alpha" [("content", "alpha")] cexItemC] := by
    show (check_guideline_compliance "alpha" [("content", "alpha")] cexConsort "CONSORT").items
        = _
    rw [cgc_items]
    rfl
  rw [hitems, cexB_check, cexC_check]
  simp [passCount, List.filter_cons, cexA_status]

theorem cex_round_ne : pyRound1 ((1 : ℚ) / 3 * 100) ≠ (1 : ℚ) / 3 * 100 := by
  have hfloor : ⌊((1 : ℚ) / 3 * 100 * 10)⌋ = 333 := by
    rw [Int.floor_eq_iff]
    constructor <;> norm_num
  have hval : pyRound1 ((1 : ℚ) / 3 * 100) = 333 / 10 := by
    simp only [pyRound1, roundHalfEven, hfloor]
    norm_num
  rw [hval]
  norm_num

/-- C4 counterexample: on the one-word document "alpha" with a three-item
CONSORT checklist of which exactly one item passes, the reported CONSORT
score is round(100/3, 1) = 33.3, not 100 × 1/3 — the claimed exact formula
fails because the source rounds every score to one decimal. -/
theorem check_compliance_scores_cex :
    passCount (check_compliance "alpha" none cexConsort cexSpirit).consortDetails.items = 1
    ∧ cexConsort.items.length = 3
    ∧ (check_compliance "alpha" none cexConsort cexSpirit).consortScore
        ≠ (passCount (check_compliance "alpha" none cexConsort cexSpirit).consortDetails.items : ℚ)
            / (cexConsort.items.length : ℚ) * 100 := by
  refine ⟨cex_passCount, rfl, ?_⟩
  have hscore : (check_compliance "alpha" none cexConsort cexSpirit).consortScore
      = pyRound1 (if cexConsort.items = [] then 0 else
          (passCount (check_compliance "alpha" none cexConsort cexSpirit).consortDetails.items : ℚ)
            / (cexConsort.items.length : ℚ) * 100) :=
    cgc_score "alpha" [("content", "alpha")] cexConsort "CONSORT"
  rw [hscore, cex_passCount]
  rw [if_neg (show ¬(cexConsort.items = []) from by decide)]
  rw [show ((cexConsort.items.length : ℕ) : ℚ) = 3 from by norm_num [cexConsort]]
  rw [show ((1 : ℕ) : ℚ) = 1 from by norm_num]
  exact cex_round_ne

/-- Witness for C4's theorem: a one-item checklist whose item passes gives
an overall score of exactly 100 with no failed items. -/
theorem check_compliance_scores_witness :
    (check_compliance "alpha" none cexPassG cexSpirit).passedItems
        = (check_compliance "alpha" none cexPassG cexSpirit).totalItems
    ∧ (check_compliance "alpha" none cexPassG cexSpirit).failedItems = []
    ∧ (check_compliance "alpha" none cexPassG cexSpirit).score = 100 := by
  have hci : (check_compliance "alpha" none cexPassG cexSpirit).consortDetails.items
      = [check_item "alpha" [("content", "alpha")] cexItemA] := by
    show (check_guideline_compliance "alpha" [("content", "alpha")] cexPassG "CONSORT").items = _
    rw [cgc_items]
    rfl
  have hsi : (check_compliance "alpha" none cexPassG cexSpirit).spiritDetails.items = [] := by
    show (check_guideline_compliance "alpha" [("content", "alpha")] cexSpirit "SPIRIT").items = _
    rw [cgc_items]
    rfl
  have hall : ∀ r ∈ (check_compliance "alpha" none cexPassG cexSpirit).consortDetails.items
      ++ (check_compliance "alpha" none cexPassG cexSpirit).spiritDetails.items,
      r.status = "pass" := by
    rw [hci, hsi]
    intro r hr
    simp only [List.append_nil, List.mem_singleton] at hr
    rw [hr]
    exact cexA_status
  obtain ⟨-, -, -, -, -, h6⟩ := check_compliance_scores "alpha" none cexPassG cexSpirit
  obtain ⟨w1, w2, w3⟩ := h6 hall
  exact ⟨w1, w2, w3 (by decide)⟩


/-! ## Lemmas about title extraction -/

theorem titleScan_eq_find (ls : List String) :
    titleScan ls = (ls.map pyStrip).find? titleGood := by
  induction ls with
  | nil => rfl
  | cons line rest ih =>
    simp only [titleScan, List.map_cons]
    cases hb1 : (!(pyStrip line).data.isEmpty && decide ((pyStrip line).data.length < 200)) with
    | false =>
      have hg : titleGood (pyStrip line) = false := by
        rw [titleGood, hb1, Bool.false_and]
      rw [if_neg (by simp [hb1]), List.find?_cons_of_neg _ (by simp [hg]), ih]
    | true =>
      cases hb2 : titleKeywords.any (fun k => pyContains (pyLower (pyStrip line)) k) with
      | true =>
        have hg : titleGood (pyStrip line) = true := by
          rw [titleGood, hb1, hb2, Bool.true_and, Bool.true_or]
        rw [if_pos rfl, if_pos rfl, List.find?_cons_of_pos _ hg]
      | false =>
        by_cases hb3 : 10 < (pyStrip line).data.length
        · have hg : titleGood (pyStrip line) = true := by
            rw [titleGood, hb1, hb2, Bool.true_and, Bool.false_or, decide_eq_true hb3]
          rw [if_pos rfl, if_neg (by simp), if_pos hb3, List.find?_cons_of_pos _ hg]
        · have hg : titleGood (pyStrip line) = false := by
            rw [titleGood, hb1, hb2, Bool.true_and, Bool.false_or, decide_eq_false hb3]
          rw [if_pos rfl, if_neg (by simp), if_neg hb3,
            List.find?_cons_of_neg _ (by simp [hg]), ih]

theorem firstNonEmpty_eq_find (ls : List String) :
    firstNonEmpty ls = (ls.map pyStrip).find? (fun l => !l.data.isEmpty) := by
  induction ls with
  | nil => rfl
  | cons line rest ih =>
    simp only [firstNonEmpty, List.map_cons]
    cases hb : (pyStrip line).data.isEmpty with
    | true =>
      rw [if_pos rfl, List.find?_cons_of_neg _ (by simp [hb]), ih]
    | false =>
      rw [if_neg (by simp [hb]), List.find?_cons_of_pos _ (by simp [hb])]

/-- C8 (amended): `_extract_title` makes a single pass over the first 10 raw
lines (empty lines included), returning the first stripped line that is
non-empty, shorter than 200 characters, and either contains a title keyword
or is longer than 10 characters (`titleGood`); failing that, it returns the
first non-empty stripped line of the whole document, truncated to 100
characters with an ellipsis when longer, and failing that the literal
"Untitled Protocol".  (The claim's two-pass keyword-first priority over the
first 10 non-empty lines, with no length cap, is `extract_title_spec`; the
counterexample separates the two.) -/
theorem extract_title_characterization (content : String) :
    extract_title content =
      (match (((pySplitNl content).take 10).map pyStrip).find? titleGood with
      | some t => t
      | none =>
        match ((pySplitNl content).map pyStrip).find? (fun l => !l.data.isEmpty) with
        | some l =>
          if 100 < l.data.length then ⟨l.data.take 100 ++ ("..." : String).data⟩ else l
        | none => "Untitled Protocol") := by
  rw [extract_title, titleScan_eq_find, firstNonEmpty_eq_find]

/-- C8 counterexample: on a document whose first line is long but
keyword-free and whose second line contains the keyword "study", the source
returns the first line (single pass, first hit wins), while the claimed
keyword-first scan over non-empty lines would return the second line. -/
theorem extract_title_cex :
    extract_title "A somewhat lengthy line\nclinical study protocol" = "A somewhat lengthy line"
    ∧ extract_title_spec "A somewhat lengthy line\nclinical study protocol"
        = "clinical study protocol"
    ∧ extract_title "A somewhat lengthy line\nclinical study protocol"
        ≠ extract_title_spec "A somewhat lengthy line\nclinical study protocol" := by
  refine ⟨by decide, by decide, by decide⟩

/-! ## Lemmas about section segmentation -/

theorem splitNl_ne_nil (l : List Char) : splitNl l ≠ [] := by
  cases l with
  | nil => simp [splitNl]
  | cons c rest =>
    simp only [splitNl]
    by_cases hc : c = '\n'
    · rw [if_pos hc]
      simp
    · rw [if_neg hc]
      cases h : splitNl rest <;> simp

theorem joinNl_splitNl (l : List Char) : joinNl (splitNl l) = l := by
  induction l with
  | nil => rfl
  | cons c rest ih =>
    simp only [splitNl]
    by_cases hc : c = '\n'
    · subst hc
      rw [if_pos rfl]
      obtain ⟨a, b, hab⟩ := List.exists_cons_of_ne_nil (splitNl_ne_nil rest)
      rw [hab]
      show [] ++ '\n' :: joinNl (a :: b) = '\n' :: rest
      rw [← hab, ih]
      rfl
    · rw [if_neg hc]
      obtain ⟨a, b, hab⟩ := List.exists_cons_of_ne_nil (splitNl_ne_nil rest)
      rw [hab]
      cases b with
      | nil =>
        show c :: a = c :: rest
        have h2 : joinNl (splitNl rest) = rest := ih
        rw [hab] at h2
        rw [show joinNl [a] = a from rfl] at h2
        rw [h2]
      | cons b1 bs =>
        show (c :: a) ++ '\n' :: joinNl (b1 :: bs) = c :: rest
        have h2 : joinNl (splitNl rest) = rest := ih
        rw [hab] at h2
        rw [show joinNl (a :: b1 :: bs) = a ++ '\n' :: joinNl (b1 :: bs) from rfl] at h2
        rw [List.cons_append, h2]

theorem splitNl_append (x y : List Char) :
    splitNl (x ++ '\n' :: y) = splitNl x ++ splitNl y := by
  induction x with
  | nil =>
    show splitNl ('\n' :: y) = splitNl [] ++ splitNl y
    simp [splitNl]
  | cons c rest ih =>
    show splitNl (c :: (rest ++ '\n' :: y)) = splitNl (c :: rest) ++ splitNl y
    by_cases hc : c = '\n'
    · subst hc
      simp only [splitNl, if_pos rfl]
      rw [ih]
      rfl
    · simp only [splitNl, if_neg hc]
      rw [ih]
      obtain ⟨a, b, hab⟩ := List.exists_cons_of_ne_nil (splitNl_ne_nil rest)
      rw [hab]
      simp [List.cons_append]

theorem mem_dropWhile_of_not (p : Char → Bool) (l : List Char) (c : Char)
    (hc : c ∈ l) (hp : p c = false) : c ∈ l.dropWhile p := by
  induction l with
  | nil => cases hc
  | cons a rest ih =>
    rw [List.dropWhile_cons]
    by_cases ha : p a = true
    · rw [if_pos ha]
      rcases List.mem_cons.mp hc with h | h
      · subst h
        rw [hp] at ha
        cases ha
      · exact ih h
    · rw [if_neg ha]
      exact hc

theorem mem_stripL (l : List Char) (c : Char) (hc : c ∈ l) (hw : pyWS c = false) :
    c ∈ stripL l :=
  List.mem_reverse.mpr (mem_dropWhile_of_not _ _ _
    (List.mem_reverse.mpr (mem_dropWhile_of_not _ _ _ hc hw)) hw)

theorem strip_body_kept (s : String) (h : ∃ c ∈ s.data, pyWS c = false) :
    pyStrip (pyStrip s) ≠ "" := by
  intro heq
  have hdata : stripL (stripL s.data) = [] := congrArg String.data heq
  obtain ⟨c, hc, hw⟩ := h
  have h1 : c ∈ stripL s.data := mem_stripL _ _ hc hw
  have h2 : c ∈ stripL (stripL s.data) := mem_stripL _ _ h1 hw
  rw [hdata] at h2
  cases h2

theorem segLoop_accum : ∀ (B : List String),
    (∀ l ∈ B, isSectionHeading (pyLower (pyStrip l)) = false
        ∧ isNumberedHeading (pyStrip l) = false) →
    ∀ (rest : List String) (cur : String) (acc : List String) (secs : List (String × String)),
      segLoop (B ++ rest) cur acc secs = segLoop rest cur (acc ++ B) secs := by
  intro B
  induction B with
  | nil =>
    intro _ rest cur acc secs
    simp
  | cons b B ih =>
    intro hB rest cur acc secs
    have hb := hB b (List.mem_cons_self b B)
    simp only [List.cons_append, segLoop]
    rw [if_neg (by simp [hb.1]), if_neg (by simp [hb.2])]
    simp only [List.append_eq]
    rw [ih (fun l hl => hB l (List.mem_cons_of_mem b hl)) rest cur (acc ++ [b]) secs]
    rw [show (acc ++ [b]) ++ B = acc ++ b :: B from by simp]

theorem pySplitNl_ne_nil (s : String) : pySplitNl s ≠ [] := by
  simp [pySplitNl, splitNl_ne_nil]

theorem flushSection_lines (secs : List (String × String)) (cur : String) (s : String) :
    flushSection secs cur (pySplitNl s) = upsert secs cur (pyStrip s) := by
  unfold flushSection
  rw [if_neg (pySplitNl_ne_nil s)]
  have hj : joinNl ((pySplitNl s).map (fun x => x.data)) = s.data := by
    unfold pySplitNl
    rw [List.map_map,
      show ((fun x : String => x.data) ∘ fun l => (⟨l⟩ : String)) = id from rfl, List.map_id]
    exact joinNl_splitNl s.data
  rw [hj]

theorem upsert_nil (k v : String) : upsert [] k v = [(k, v)] := by
  simp [upsert]

theorem upsert_single_ne (a b k v : String) (h : a ≠ k) :
    upsert [(a, b)] k v = [(a, b), (k, v)] := by
  simp [upsert, h]

/-- C6 (amended): segmenting a document none of whose lines matches a
heading pattern or the numbered-heading pattern, and which contains at
least one non-whitespace character, yields exactly one section, labeled
"Introduction", whose body is the entire input stripped of leading and
trailing whitespace (the source flushes each section body through
`str.strip`; the claim's "containing the entire input" holds only up to
that stripping). -/
theorem segment_sections_no_heading (content : String)
    (h1 : ∀ line ∈ pySplitNl content, isSectionHeading (pyLower (pyStrip line)) = false
        ∧ isNumberedHeading (pyStrip line) = false)
    (h2 : ∃ c ∈ content.data, pyWS c = false) :
    segment_sections content = [("Introduction", pyStrip content)] := by
  unfold segment_sections
  have hacc := segLoop_accum (pySplitNl content) h1 [] "Introduction" [] []
  rw [List.append_nil] at hacc
  rw [List.nil_append] at hacc
  rw [hacc]
  rw [show segLoop [] "Introduction" (pySplitNl content) []
      = flushSection [] "Introduction" (pySplitNl content) from rfl]
  rw [flushSection_lines, upsert_nil]
  rw [List.filter_cons]
  rw [if_pos (by simp [strip_body_kept content h2])]
  rfl

/-- C6 counterexample: the document "x " (with a trailing space) has no
heading lines and a non-whitespace character, and segments to a single
"Introduction" section — but its body is the stripped text "x", not the
entire input "x ". -/
theorem segment_sections_no_heading_cex :
    segment_sections "x " = [("Introduction", "x")] ∧ ("x" : String) ≠ "x " :=
  ⟨by decide, by decide⟩

/-- Witness for C6's theorem at a concrete input. -/
theorem segment_sections_no_heading_witness :
    (∀ line ∈ pySplitNl "hello world", isSectionHeading (pyLower (pyStrip line)) = false
        ∧ isNumberedHeading (pyStrip line) = false)
    ∧ (∃ c ∈ ("hello world" : String).data, pyWS c = false)
    ∧ segment_sections "hello world" = [("Introduction", pyStrip "hello world")] :=
  ⟨by decide, by decide, segment_sections_no_heading "hello world" (by decide) (by decide)⟩

theorem pySplitNl_intro_methods (b1 b2 : String) :
    pySplitNl ("Introduction\n" ++ b1 ++ "\nMethods\n" ++ b2)
      = "Introduction" :: (pySplitNl b1 ++ "Methods" :: pySplitNl b2) := by
  have hdata : ("Introduction\n" ++ b1 ++ "\nMethods\n" ++ b2).data
      = "Introduction".data ++ '\n' :: (b1.data ++ '\n' :: ("Methods".data ++ '\n' :: b2.data)) := by
    show (("Introduction\n".data ++ b1.data) ++ "\nMethods\n".data) ++ b2.data = _
    rw [show "Introduction\n".data = "Introduction".data ++ ['\n'] from by decide,
      show "\nMethods\n".data = '\n' :: ("Methods".data ++ ['\n']) from by decide]
    simp
  unfold pySplitNl
  rw [hdata, splitNl_append, splitNl_append, splitNl_append,
    show splitNl "Introduction".data = ["Introduction".data] from by decide,
    show splitNl "Methods".data = ["Methods".data] from by decide]
  simp [pySplitNl]

/-- C7 (amended): segmenting the heading line "Introduction", a body, the
heading line "Methods", and a second body — where neither body contains a
heading-like line and both bodies contain a non-whitespace character —
yields exactly the two sections "Introduction" and "Methods", whose values
are the corresponding bodies stripped of leading and trailing whitespace,
with the heading lines excluded.  (The stripping, and the need for the
bodies to be more than whitespace and heading-free, is what the source
adds to the claim; the counterexample shows a non-empty whitespace body
collapses to one section.) -/
theorem segment_sections_intro_methods (b1 b2 : String)
    (h1 : ∀ line ∈ pySplitNl b1, isSectionHeading (pyLower (pyStrip line)) = false
        ∧ isNumberedHeading (pyStrip line) = false)
    (h2 : ∀ line ∈ pySplitNl b2, isSectionHeading (pyLower (pyStrip line)) = false
        ∧ isNumberedHeading (pyStrip line) = false)
    (h3 : ∃ c ∈ b1.data, pyWS c = false) (h4 : ∃ c ∈ b2.data, pyWS c = false) :
    segment_sections ("Introduction\n" ++ b1 ++ "\nMethods\n" ++ b2)
      = [("Introduction", pyStrip b1), ("Methods", pyStrip b2)] := by
  unfold segment_sections
  rw [pySplitNl_intro_methods]
  simp only [segLoop]
  rw [if_pos (show isSectionHeading (pyLower (pyStrip "Introduction")) = true from by decide)]
  rw [show pyTitle (pyStrip "Introduction") = "Introduction" from by decide]
  rw [show flushSection [] "Introduction" [] = [] from rfl]
  rw [segLoop_accum (pySplitNl b1) h1 ("Methods" :: pySplitNl b2) "Introduction" [] []]
  rw [List.nil_append]
  simp only [segLoop]
  rw [if_pos (show isSectionHeading (pyLower (pyStrip "Methods")) = true from by decide)]
  rw [show pyTitle (pyStrip "Methods") = "Methods" from by decide]
  rw [flushSection_lines, upsert_nil]
  have haccb2 := segLoop_accum (pySplitNl b2) h2 [] "Methods" [] [("Introduction", pyStrip b1)]
  rw [List.append_nil] at haccb2
  rw [List.nil_append] at haccb2
  rw [haccb2]
  rw [show segLoop [] "Methods" (pySplitNl b2) [("Introduction", pyStrip b1)]
      = flushSection [("Introduction", pyStrip b1)] "Methods" (pySplitNl b2) from rfl]
  rw [flushSection_lines, upsert_single_ne _ _ _ _ (by decide)]
  rw [List.filter_cons, if_pos (by simp [strip_body_kept b1 h3])]
  rw [List.filter_cons, if_pos (by simp [strip_body_kept b2 h4])]
  rfl

/-- C7 counterexample: with the second body the non-empty string " "
(a single space), segmentation yields only one section — the "Methods"
body strips to empty and is dropped — so the claimed two-section result
fails for a merely non-empty body. -/
theorem segment_sections_intro_methods_cex :
    (" " : String) ≠ ""
    ∧ segment_sections "Introduction\nAlpha\nMethods\n " = [("Introduction", "Alpha")]
    ∧ (segment_sections "Introduction\nAlpha\nMethods\n ").length ≠ 2 :=
  ⟨by decide, by decide, by decide⟩

/-- Witness for C7's theorem at a concrete input. -/
theorem segment_sections_intro_methods_witness :
    (∀ line ∈ pySplitNl "Alpha", isSectionHeading (pyLower (pyStrip line)) = false
        ∧ isNumberedHeading (pyStrip line) = false)
    ∧ (∃ c ∈ ("Alpha" : String).data, pyWS c = false)
    ∧ segment_sections ("Introduction\n" ++ "Alpha" ++ "\nMethods\n" ++ "Beta")
        = [("Introduction", pyStrip "Alpha"), ("Methods", pyStrip "Beta")] :=
  ⟨by decide, by decide,
    segment_sections_intro_methods "Alpha" "Beta" (by decide) (by decide) (by decide) (by decide)⟩
